import Mathlib

/-!
Verification of the fetch-paginate-write pipeline of fetch_and_build.py
(cbp-ice-dashboard). The Python source is shallowly embedded: transaction
records become a structure of optional fields, the CSV writer becomes a
function from record lists to a list of rows of Python values, the
paginated fetch loop becomes a fuel-indexed recursion over an abstract
page source, and the command-line year selection becomes a total function
over token lists (with Python exceptions modelled by Except).
-/

namespace FetchBuild

/-- A value as written by Python's csv.writer: Python None is serialised
as the empty cell, strings as themselves, integers by their decimal
representation. -/
inductive PyVal where
  | none : PyVal
  | str : String → PyVal
  | int : Int → PyVal
  deriving DecidableEq, Repr

/-- One transaction record as returned by the remote search, i.e. a JSON
object. Each field is absent (Option.none) or present; the amount field
may additionally be present but null, hence Option (Option Int). -/
structure PyRecord where
  awardId : Option String := Option.none
  recipientName : Option String := Option.none
  transactionAmount : Option (Option Int) := Option.none
  actionDate : Option String := Option.none
  modCode : Option String := Option.none
  psDescription : Option String := Option.none
  naicsDescription : Option String := Option.none
  txDescription : Option String := Option.none
  deriving DecidableEq, Repr

/-- Python t.get(field, "") for a string field: missing gives "". -/
def getStr (v : Option String) : PyVal :=
  match v with
  | Option.none => PyVal.str ""
  | Option.some s => PyVal.str s

/-- Python t.get("Transaction Amount", 0) as the value handed to
csv.writer: a missing field yields the default 0, a field present but
null yields Python None (written as an empty cell), a numeric field
yields its value. -/
def getAmt (v : Option (Option Int)) : PyVal :=
  match v with
  | Option.none => PyVal.int 0
  | Option.some Option.none => PyVal.none
  | Option.some (Option.some z) => PyVal.int z

/-- The fixed header row written first by save_to_csv. -/
def headerRow : List PyVal :=
  [PyVal.str "Agency", PyVal.str "Award ID", PyVal.str "Recipient Name",
   PyVal.str "Federal Action Obligation", PyVal.str "Action Date",
   PyVal.str "Modification", PyVal.str "Product/Service Description",
   PyVal.str "NAICS Description", PyVal.str "Transaction Description"]

/-- One data row written by save_to_csv for agency label ag (the body of
each of the two for loops, lines 93-107 of fetch_and_build.py). -/
def csvRow (ag : String) (t : PyRecord) : List PyVal :=
  [PyVal.str ag, getStr t.awardId, getStr t.recipientName,
   getAmt t.transactionAmount, getStr t.actionDate,
   getStr t.modCode, getStr t.psDescription,
   getStr t.naicsDescription, getStr t.txDescription]

/-- The sequence of rows save_to_csv writes: the header, then one
writerow call per CBP record, then one per ICE record, modelled as the
same sequence of appends the Python loops perform. -/
def save_to_csv (cbp_data ice_data : List PyRecord) : List (List PyVal) :=
  let rows := [headerRow]
  let rows := cbp_data.foldl (fun acc t => acc ++ [csvRow "CBP" t]) rows
  let rows := ice_data.foldl (fun acc t => acc ++ [csvRow "ICE" t]) rows
  rows

/-- Reading a cell of the Federal Action Obligation column as a number,
with a missing (empty) or null cell counted as 0. -/
def amountCellVal (v : PyVal) : Int :=
  match v with
  | PyVal.int z => z
  | _ => 0

/-- Sum of the Federal Action Obligation column (index 3) over the data
rows of a CSV (everything after the header row). -/
def fedObligationColumnSum (rows : List (List PyVal)) : Int :=
  ((rows.drop 1).map (fun row => amountCellVal (row.getD 3 PyVal.none))).sum

/-- Python (t.get("Transaction Amount", 0) or 0): a missing field gives
the default 0, a null gives 0 via the or, and a numeric value v gives v,
with the falsy value 0 mapped to 0 by the or. -/
def amtOr0 (t : PyRecord) : Int :=
  match t.transactionAmount with
  | Option.none => 0
  | Option.some Option.none => 0
  | Option.some (Option.some z) => if z = 0 then 0 else z

/-- The CBP total printed by fetch_fiscal_year (line 133). -/
def cbpTotal (cbp_data : List PyRecord) : Int := (cbp_data.map amtOr0).sum

/-- The ICE total printed by fetch_fiscal_year (line 134). -/
def iceTotal (ice_data : List PyRecord) : Int := (ice_data.map amtOr0).sum

/-- A file system: a map from paths to file contents (here, CSV rows). -/
def FileSys : Type := String → Option (List (List PyVal))

/-- The data directory (os.path.join(SCRIPT_DIR, "data")), as a path
relative to the script location. -/
def DATA_DIR : String := "data"

/-- The output path for a fiscal year. -/
def csvPath (fy : Nat) : String :=
  DATA_DIR ++ "/CBP_ICE_FY" ++ toString fy ++ "_Contract_Obligations.csv"

/-- Running save_to_csv against a file system: mode "w" truncates, so
the file at csvPath fy is replaced wholesale by the freshly built rows. -/
def runSave (fs : FileSys) (cbp_data ice_data : List PyRecord) (fy : Nat) :
    FileSys :=
  fun p => if p = csvPath fy then Option.some (save_to_csv cbp_data ice_data)
           else fs p

/-- Outcome of one page request in fetch_transactions: either the
request fails (transport error, non-success HTTP status raised by
raise_for_status, or malformed body failing response.json()), or it
yields a results list and the page_metadata hasNext flag. -/
inductive PageResult where
  | err : String → PageResult
  | ok : List PyRecord → Bool → PageResult
  deriving DecidableEq, Repr

/-- A paginated source: what the endpoint answers for each page number. -/
def Source : Type := Nat → PageResult

/-- The observable outcome of one fetch_transactions call: the records
returned, the page numbers requested in order, the page number logged by
the except branch (if any), and whether the modelling fuel ran out
before the loop terminated (never the case in the theorems below). -/
structure FetchOut where
  results : List PyRecord
  pages : List Nat
  errPage : Option Nat
  fuelOut : Bool
  deriving DecidableEq, Repr

/-- The while-True loop of fetch_transactions (lines 37-76): request the
current page; on failure log the page number and break; otherwise extend
the accumulator and break when hasNext is false or the page was empty,
else advance the page counter by one. Fuel bounds the iterations of the
embedding only. -/
def fetchGo (src : Source) : Nat → Nat → List PyRecord → List Nat → FetchOut
  | 0, _, acc, pages => ⟨acc, pages, Option.none, true⟩
  | fuel + 1, page, acc, pages =>
    match src page with
    | PageResult.err _ => ⟨acc, pages ++ [page], Option.some page, false⟩
    | PageResult.ok results hasNext =>
      if !hasNext || results.length == 0 then
        ⟨acc ++ results, pages ++ [page], Option.none, false⟩
      else
        fetchGo src fuel (page + 1) (acc ++ results) (pages ++ [page])

/-- fetch_transactions: run the page loop from page 1 with an empty
accumulator. -/
def fetch_transactions (src : Source) (fuel : Nat) : FetchOut :=
  fetchGo src fuel 1 [] []

/-- A record with every field absent, for concrete test sources. -/
def recW : PyRecord := {}

/-- A concrete source whose page 1 succeeds with one record and more
pages announced, and whose page 2 fails. -/
def srcErr2 : Source := fun p =>
  if p = 1 then PageResult.ok [recW] true else PageResult.err "boom"

/-- A concrete source serving pages of sizes 100, 100, 37, 0, with the
hasNext flag set until the pages are exhausted. -/
def srcPages : Source := fun p =>
  if p = 1 then PageResult.ok (List.replicate 100 recW) true
  else if p = 2 then PageResult.ok (List.replicate 100 recW) true
  else if p = 3 then PageResult.ok (List.replicate 37 recW) true
  else PageResult.ok [] false

/-- The FISCAL_YEARS table: year key with start and end dates, in the
order the source lists them. -/
def FISCAL_YEARS : List (Nat × String × String) :=
  [(2026, "2025-10-01", "2026-09-30"),
   (2025, "2024-10-01", "2025-09-30"),
   (2024, "2023-10-01", "2024-09-30"),
   (2023, "2022-10-01", "2023-09-30"),
   (2022, "2021-10-01", "2022-09-30"),
   (2021, "2020-10-01", "2021-09-30")]

/-- FISCAL_YEARS.keys(). -/
def fiscalYearKeys : List Nat := FISCAL_YEARS.map (fun e => e.1)

/-- The two configured agencies, CBP before ICE. -/
def AGENCIES : List (String × String) :=
  [("CBP", "U.S. Customs and Border Protection"),
   ("ICE", "U.S. Immigration and Customs Enforcement")]

/-- Insertion step for descending sort. -/
def insertDesc (x : Nat) : List Nat → List Nat
  | [] => [x]
  | y :: ys => if x ≥ y then x :: y :: ys else y :: insertDesc x ys

/-- Python sorted(keys, reverse=True). -/
def sortDesc (l : List Nat) : List Nat := l.foldr insertDesc []

/-- Python max over a key list; max of the nonempty configured key set
(the empty case is unreachable for the fixed configuration). -/
def pyMax (l : List Nat) : Nat :=
  match l with
  | [] => 0
  | x :: xs => xs.foldl max x

/-- How a character behaves under Python str.isdigit and int():
decimal digits (Unicode Numeric_Type=Decimal, general category Nd)
satisfy isdigit and are accepted by int() with their decimal value;
digit-only characters (Numeric_Type=Digit, such as superscript or
circled digits) satisfy isdigit but make int() raise ValueError; all
other characters fail isdigit. -/
inductive DigitClass where
  | decimal : Nat → DigitClass
  | digitOnly : DigitClass
  | nonDigit : DigitClass
  deriving DecidableEq, Repr

/-- The Unicode classification behind str.isdigit and int(), modelled
over the ASCII range together with representative non-ASCII blocks: the
Arabic-Indic and Devanagari decimal digits, the superscript digits two,
three and one, and the circled digits one to nine. The omitted decimal
and digit-only code points behave like the representatives included. -/
def charDigitClass (c : Char) : DigitClass :=
  if 48 ≤ c.toNat ∧ c.toNat ≤ 57 then DigitClass.decimal (c.toNat - 48)
  else if 1632 ≤ c.toNat ∧ c.toNat ≤ 1641 then DigitClass.decimal (c.toNat - 1632)
  else if 2406 ≤ c.toNat ∧ c.toNat ≤ 2415 then DigitClass.decimal (c.toNat - 2406)
  else if c.toNat = 178 ∨ c.toNat = 179 ∨ c.toNat = 185 then DigitClass.digitOnly
  else if 9312 ≤ c.toNat ∧ c.toNat ≤ 9320 then DigitClass.digitOnly
  else DigitClass.nonDigit

/-- A character accepted by str.isdigit: decimal or digit-only. -/
def isDigitChar (c : Char) : Bool :=
  match charDigitClass c with
  | DigitClass.nonDigit => false
  | _ => true

/-- A character accepted by int(): decimal only. -/
def isDecimalChar (c : Char) : Bool :=
  match charDigitClass c with
  | DigitClass.decimal _ => true
  | _ => false

/-- Python str.isdigit: nonempty and every character decimal or
digit-only. -/
def pythonIsDigit (s : String) : Bool := !s.isEmpty && s.toList.all isDigitChar

/-- Decimal value of a character (0 on the branches int() rejects). -/
def digitVal (c : Char) : Nat :=
  match charDigitClass c with
  | DigitClass.decimal v => v
  | _ => 0

/-- Decimal value of a digit string. -/
def strToNat (s : String) : Nat :=
  s.toList.foldl (fun n c => n * 10 + digitVal c) 0

/-- Whether int(token) succeeds on the tokens reaching it here (those
passing str.isdigit): every character must be a decimal digit; a token
holding a digit-only character such as a superscript makes int() raise
ValueError. Sign, whitespace and underscore forms never pass the
isdigit guard, so they are not modelled. -/
def pyIntOk (s : String) : Bool := !s.isEmpty && s.toList.all isDecimalChar

/-- Python int(token) on the token space reaching it here. -/
def pyInt (s : String) : Except String Nat :=
  if pyIntOk s then Except.ok (strToNat s) else Except.error "ValueError"

/-- A token on which line 166 cannot raise: either it fails the digit
check (and is silently dropped), or int() converts it. -/
def tokenSafe (s : String) : Bool := !pythonIsDigit s || pyIntOk s

/-- Python str.lower restricted to ASCII case mapping. -/
def pyLower (s : String) : String := String.mk (s.toList.map Char.toLower)

/-- The list comprehension of line 166:
consider each token in order, keep it when it passes the digit-only
check and its integer value is a configured key; int may raise, modelled
in Except. -/
def parseYears : List String → Except String (List Nat)
  | [] => Except.ok []
  | y :: ys =>
    if pythonIsDigit y then
      match pyInt y with
      | Except.error e => Except.error e
      | Except.ok n =>
        if fiscalYearKeys.contains n then
          match parseYears ys with
          | Except.error e => Except.error e
          | Except.ok rest => Except.ok (n :: rest)
        else parseYears ys
    else parseYears ys

/-- The per-token outcome of the comprehension, as a total function. -/
def parseTok (y : String) : Option Nat :=
  if pythonIsDigit y then
    match pyInt y with
    | Except.ok n =>
      if fiscalYearKeys.contains n then Option.some n else Option.none
    | Except.error _ => Option.none
  else Option.none

/-- What main decides to do after argument parsing: fetch a list of
years, or print usage and return. -/
inductive SelOut where
  | years : List Nat → SelOut
  | usage : SelOut
  deriving DecidableEq, Repr

/-- The year-selection logic of main (lines 161-176): a first argument
whose lowercase form is all selects every configured year in descending
order; otherwise explicit tokens are filtered by the comprehension, an
empty result meaning usage; no arguments selects the maximum key. -/
def selectedYearsE (args : List String) : Except String SelOut :=
  match args with
  | [] => Except.ok (SelOut.years [pyMax fiscalYearKeys])
  | a :: _ =>
    if pyLower a = "all" then
      Except.ok (SelOut.years (sortDesc fiscalYearKeys))
    else
      match parseYears args with
      | Except.error e => Except.error e
      | Except.ok [] => Except.ok SelOut.usage
      | Except.ok ys => Except.ok (SelOut.years ys)

/-- Externally visible side effects of a run. -/
inductive Eff where
  | mkdir : String → Eff
  | consoleOut : String → Eff
  | request : String → Nat → Eff
  | fileWrite : String → Eff
  deriving DecidableEq, Repr

/-- A network oracle: for an agency full name and fiscal year, the
paginated source answering each page request. -/
def Oracle : Type := String → Nat → Source

/-- The side effects of fetch_fiscal_year for one year: page requests
for each agency in the configured order, then the CSV write. -/
def fetchFiscalYearEffs (o : Oracle) (fuel fy : Nat) : List Eff :=
  (AGENCIES.flatMap fun ag =>
    (fetch_transactions (o ag.2 fy) fuel).pages.map (Eff.request ag.2))
  ++ [Eff.fileWrite (csvPath fy)]

/-- The effects main performs before argument parsing (lines 153-158):
the makedirs call on the data directory and the banner print. -/
def preEffs : List Eff :=
  [Eff.mkdir DATA_DIR,
   Eff.consoleOut "CBP and ICE Contract Spending Data Fetcher"]

/-- The usage message printed when no token is recognized. -/
def usageLineEff : Eff :=
  Eff.consoleOut "Usage: python fetch_and_build.py year1 year2 ..."

/-- The side-effect trace of main (lines 150-195): the data directory is
created and the banner printed before argument parsing; then either the
usage message is printed and main returns, or each selected year is
fetched in order and a summary printed. -/
def mainTrace (o : Oracle) (fuel : Nat) (args : List String) :
    Except String (List Eff) :=
  match selectedYearsE args with
  | Except.error e => Except.error e
  | Except.ok SelOut.usage => Except.ok (preEffs ++ [usageLineEff])
  | Except.ok (SelOut.years ys) =>
    Except.ok (preEffs ++ ys.flatMap (fetchFiscalYearEffs o fuel)
      ++ [Eff.consoleOut "SUMMARY"])

/-- The trace of the usage path. -/
def usageTrace : List Eff := preEffs ++ [usageLineEff]

/-- An oracle whose every request fails, for concrete runs. -/
def downOracle : Oracle := fun _ _ _ => PageResult.err "down"

lemma foldl_writerow (ag : String) (l : List PyRecord)
    (init : List (List PyVal)) :
    l.foldl (fun acc t => acc ++ [csvRow ag t]) init
      = init ++ l.map (csvRow ag) := by
  induction l generalizing init with
  | nil => simp
  | cons t ts ih => simp [ih, List.append_assoc]

lemma save_to_csv_eq (cbp_data ice_data : List PyRecord) :
    save_to_csv cbp_data ice_data
      = headerRow :: (cbp_data.map (csvRow "CBP")
                       ++ ice_data.map (csvRow "ICE")) := by
  simp [save_to_csv, foldl_writerow, List.append_assoc]

lemma amountCell_csvRow (ag : String) (t : PyRecord) :
    amountCellVal ((csvRow ag t).getD 3 PyVal.none) = amtOr0 t := by
  rcases t with ⟨a, r, amt, d, m, p, n, x⟩
  rcases amt with _ | amt
  · rfl
  · rcases amt with _ | z
    · rfl
    · by_cases hz : z = 0 <;>
        simp [csvRow, getAmt, amtOr0, amountCellVal, hz]

lemma charDigitClass_ascii (c : Char) (h : c.toNat ≤ 127) :
    charDigitClass c = DigitClass.decimal (c.toNat - 48)
      ∨ charDigitClass c = DigitClass.nonDigit := by
  unfold charDigitClass
  split_ifs with h1 h2 h3 h4 h5
  · exact Or.inl rfl
  · exact absurd h2.1 (by omega)
  · exact absurd h3.1 (by omega)
  · rcases h4 with h4 | h4 | h4 <;> omega
  · exact absurd h5.1 (by omega)
  · exact Or.inr rfl

lemma ascii_digit_decimal (c : Char) (h : c.toNat ≤ 127)
    (hd : isDigitChar c = true) : isDecimalChar c = true := by
  rcases charDigitClass_ascii c h with h1 | h1 <;>
    simp [isDigitChar, isDecimalChar, h1] at hd ⊢

lemma ascii_tokenSafe (s : String) (h : ∀ c ∈ s.toList, c.toNat ≤ 127) :
    tokenSafe s = true := by
  cases hpd : pythonIsDigit s with
  | false => simp [tokenSafe, hpd]
  | true =>
    have h1 := hpd
    rw [pythonIsDigit, Bool.and_eq_true, List.all_eq_true] at h1
    have h2 : pyIntOk s = true := by
      rw [pyIntOk, Bool.and_eq_true, List.all_eq_true]
      exact ⟨h1.1, fun c hc => ascii_digit_decimal c (h c hc) (h1.2 c hc)⟩
    simp [tokenSafe, h2]

lemma parseYears_eq_of_safe (l : List String)
    (h : ∀ s ∈ l, tokenSafe s = true) :
    parseYears l = Except.ok (l.filterMap parseTok) := by
  induction l with
  | nil => rfl
  | cons y ys ih =>
    have hys : ∀ s ∈ ys, tokenSafe s = true :=
      fun s hs => h s (List.mem_cons_of_mem y hs)
    by_cases hd : pythonIsDigit y = true
    · have hy : tokenSafe y = true := h y (List.mem_cons_self y ys)
      rw [tokenSafe, hd] at hy
      have hok : pyIntOk y = true := by simpa using hy
      have hp : pyInt y = Except.ok (strToNat y) := by simp [pyInt, hok]
      by_cases hc : fiscalYearKeys.contains (strToNat y) = true
      · have hm : strToNat y ∈ fiscalYearKeys := by simpa using hc
        simp [parseYears, List.filterMap_cons, parseTok, hd, hp, hc, hm,
              ih hys]
      · have hm : strToNat y ∉ fiscalYearKeys := by simpa using hc
        simp [parseYears, List.filterMap_cons, parseTok, hd, hp, hc, hm,
              ih hys]
    · simp [parseYears, List.filterMap_cons, parseTok, hd, ih hys]

lemma parseYears_drop_all (l : List String) :
    parseYears l = parseYears (l.filter (fun s => !(s == "all"))) := by
  induction l with
  | nil => rfl
  | cons y ys ih =>
    by_cases hy : y = "all"
    · subst hy
      have hd : pythonIsDigit "all" = false := by decide
      simp [List.filter_cons, parseYears, hd, ih]
    · have hb : (y == "all") = false := by simp [hy]
      by_cases hd : pythonIsDigit y = true
      · cases hp : pyInt y with
        | error e => simp [List.filter_cons, hb, parseYears, hd, hp]
        | ok n =>
          by_cases hc : fiscalYearKeys.contains n = true
          · have hm : n ∈ fiscalYearKeys := by simpa using hc
            simp [List.filter_cons, hb, parseYears, hd, hp, hm, ih]
          · have hm : n ∉ fiscalYearKeys := by simpa using hc
            simp [List.filter_cons, hb, parseYears, hd, hp, hm, ih]
      · simp [List.filter_cons, hb, parseYears, hd, ih]

end FetchBuild

namespace FetchBuild

/-- C1: for every pair of record lists, including records whose amount
field is missing or null, the sum of the Federal Action Obligation
column of the CSV produced by save_to_csv (missing or null cells counted
as 0) equals the CBP total plus the ICE total printed by
fetch_fiscal_year for the same data. -/
theorem csv_column_sum_eq_printed_totals
    (cbp_data ice_data : List PyRecord) :
    fedObligationColumnSum (save_to_csv cbp_data ice_data)
      = cbpTotal cbp_data + iceTotal ice_data := by
  have h : ∀ ag : String,
      ((fun row => amountCellVal (row.getD 3 PyVal.none)) ∘ csvRow ag)
        = amtOr0 := by
    intro ag; funext t; exact amountCell_csvRow ag t
  rw [fedObligationColumnSum, save_to_csv_eq]
  simp only [List.drop_succ_cons, List.drop_zero, List.map_append,
             List.map_map, List.sum_append]
  rw [h "CBP", h "ICE"]
  rfl

/-- C5: the CSV written by save_to_csv has exactly
len(cbp_data) + len(ice_data) + 1 rows; the first row is the fixed
9-column header; the data rows are one per CBP record in order followed
by one per ICE record in order, so all CBP rows precede all ICE rows. -/
theorem csv_shape (cbp_data ice_data : List PyRecord) :
    (save_to_csv cbp_data ice_data).length
        = cbp_data.length + ice_data.length + 1
      ∧ (save_to_csv cbp_data ice_data).head? = Option.some headerRow
      ∧ headerRow.length = 9
      ∧ (save_to_csv cbp_data ice_data).drop 1
          = cbp_data.map (csvRow "CBP") ++ ice_data.map (csvRow "ICE") := by
  refine ⟨?_, ?_, by decide, ?_⟩
  · simp [save_to_csv_eq]
  · simp [save_to_csv_eq]
  · simp [save_to_csv_eq]

/-- C8: save_to_csv truncates and rewrites: after two successive runs
for the same fiscal year with different datasets, the file holds exactly
the header and rows of the second dataset, independent of any prior
contents. -/
theorem csv_overwrite (fs : FileSys)
    (cbp1 ice1 cbp2 ice2 : List PyRecord) (fy : Nat) :
    runSave (runSave fs cbp1 ice1 fy) cbp2 ice2 fy (csvPath fy)
        = Option.some (save_to_csv cbp2 ice2)
      ∧ ∀ gs : FileSys,
          runSave fs cbp2 ice2 fy (csvPath fy)
            = runSave gs cbp2 ice2 fy (csvPath fy) := by
  constructor
  · simp [runSave]
  · intro gs; simp [runSave]

/-- C3: for every paginated source whose page 1 succeeds with a
non-empty results list and hasNext set (so that page 2 is requested) and
whose page 2 request fails, fetch_transactions returns exactly the page-1
records, requests exactly pages 1 and 2, logs the failing page number 2,
and returns normally (the failure is caught inside the loop, so no
exception reaches the caller). -/
theorem fetch_stops_on_page2_error (src : Source) (r1 : List PyRecord)
    (m : String) (fuel : Nat)
    (h1 : src 1 = PageResult.ok r1 true) (hne : r1 ≠ [])
    (h2 : src 2 = PageResult.err m) (hf : 2 ≤ fuel) :
    fetch_transactions src fuel = ⟨r1, [1, 2], Option.some 2, false⟩ := by
  obtain ⟨k, rfl⟩ : ∃ k, fuel = k + 2 := ⟨fuel - 2, by omega⟩
  have hlen : (r1.length == 0) = false := by
    simp [List.length_eq_zero, hne]
  simp [fetch_transactions, fetchGo, h1, h2, hlen]

/-- Witness for C3 at a concrete source: page 1 returns one record,
page 2 errors; the call returns that record, pages [1, 2], and logs
page 2. -/
theorem fetch_stops_on_page2_error_witness :
    fetch_transactions srcErr2 5 = ⟨[recW], [1, 2], Option.some 2, false⟩ :=
  fetch_stops_on_page2_error srcErr2 [recW] "boom" 5 (by rfl) (by simp)
    (by rfl) (by omega)

/-- C4: for a source serving successive pages of sizes 100, 100, 37, 0
with hasNext set until the pages are exhausted, fetch_transactions
returns exactly the 237 records of pages 1-3 and issues exactly 4 page
requests, the page counter advancing by one per request from page 1. -/
theorem fetch_paginates_to_237 (src : Source) (r1 r2 r3 : List PyRecord)
    (b4 : Bool) (fuel : Nat)
    (h1 : src 1 = PageResult.ok r1 true) (l1 : r1.length = 100)
    (h2 : src 2 = PageResult.ok r2 true) (l2 : r2.length = 100)
    (h3 : src 3 = PageResult.ok r3 true) (l3 : r3.length = 37)
    (h4 : src 4 = PageResult.ok [] b4) (hf : 4 ≤ fuel) :
    fetch_transactions src fuel
        = ⟨r1 ++ r2 ++ r3, [1, 2, 3, 4], Option.none, false⟩
      ∧ (r1 ++ r2 ++ r3).length = 237 := by
  obtain ⟨k, rfl⟩ : ∃ k, fuel = k + 4 := ⟨fuel - 4, by omega⟩
  constructor
  · simp [fetch_transactions, fetchGo, h1, h2, h3, h4, l1, l2, l3]
  · simp [l1, l2, l3]

/-- Witness for C4 at a concrete source with pages of sizes
100, 100, 37, 0: the call yields 237 records over exactly 4 requests. -/
theorem fetch_paginates_to_237_witness :
    fetch_transactions srcPages 10
        = ⟨List.replicate 100 recW ++ List.replicate 100 recW
             ++ List.replicate 37 recW, [1, 2, 3, 4], Option.none, false⟩
      ∧ (List.replicate 100 recW ++ List.replicate 100 recW
           ++ List.replicate 37 recW).length = 237 :=
  fetch_paginates_to_237 srcPages (List.replicate 100 recW)
    (List.replicate 100 recW) (List.replicate 37 recW) false 10
    (by rfl) (by simp) (by rfl) (by simp) (by rfl) (by simp) (by rfl)
    (by omega)

/-- C2, counterexample: the claim says the usage path performs no
directory creation, but main calls os.makedirs on the data directory at
line 153, before argument parsing, so the run on the unrecognized token
nonsense records a mkdir effect. -/
theorem usage_run_mkdir_counterexample :
    mainTrace downOracle 1 ["nonsense"] = Except.ok usageTrace
      ∧ Eff.mkdir DATA_DIR ∈ usageTrace := by
  exact ⟨rfl, by simp [usageTrace, preEffs]⟩

/-- C2, amended: for every argument list whose first token is not a case
variant of all and whose tokens are all non-numeric or unrecognized
years, main prints the usage message and returns before any fetching,
issuing no network request and writing no file; the output directory
creation and the banner print, however, happen before argument parsing
and are present in the trace. -/
theorem usage_abort_before_fetch (o : Oracle) (fuel : Nat)
    (a : String) (rest : List String)
    (hall : pyLower a ≠ "all")
    (hempty : parseYears (a :: rest) = Except.ok []) :
    mainTrace o fuel (a :: rest) = Except.ok usageTrace
      ∧ (∀ (ag : String) (p : Nat), Eff.request ag p ∉ usageTrace)
      ∧ (∀ pth : String, Eff.fileWrite pth ∉ usageTrace)
      ∧ Eff.mkdir DATA_DIR ∈ usageTrace := by
  refine ⟨?_, ?_, ?_, ?_⟩
  · simp [mainTrace, selectedYearsE, hall, hempty, usageTrace]
  · intro ag p; simp [usageTrace, preEffs, usageLineEff]
  · intro pth; simp [usageTrace, preEffs, usageLineEff]
  · simp [usageTrace, preEffs]

/-- Witness for the amended C2 at the concrete argument list
consisting of the single unrecognized token nonsense. -/
theorem usage_abort_before_fetch_witness :
    mainTrace downOracle 1 ["nonsense"] = Except.ok usageTrace
      ∧ (∀ (ag : String) (p : Nat), Eff.request ag p ∉ usageTrace)
      ∧ (∀ pth : String, Eff.fileWrite pth ∉ usageTrace)
      ∧ Eff.mkdir DATA_DIR ∈ usageTrace :=
  usage_abort_before_fetch downOracle 1 "nonsense" [] (by decide) (by rfl)

/-- C6: the argument list 2026 2099 selects exactly the year 2026, the
unrecognized token 2099 being silently filtered out, and the selection
raises no error. -/
theorem args_2026_2099_select_only_2026 :
    selectedYearsE ["2026", "2099"] = Except.ok (SelOut.years [2026]) := rfl

/-- C7: with no arguments, exactly one fiscal year is selected, the
maximum key of the configured table, which is 2026. -/
theorem no_args_selects_latest :
    selectedYearsE [] = Except.ok (SelOut.years [pyMax fiscalYearKeys])
      ∧ pyMax fiscalYearKeys = 2026
      ∧ [pyMax fiscalYearKeys].length = 1 :=
  ⟨rfl, by decide, rfl⟩

/-- C9: any first argument whose lowercase form is all selects every
configured year in descending order; the token all in any position is
dropped by the numeric filter like any non-numeric token (so in a later
position, with a different first token, it is silently filtered out),
as the concrete run on 2025 all shows. -/
theorem all_token_first_position_case_insensitive :
    (∀ (t : String) (rest : List String), pyLower t = "all" →
        selectedYearsE (t :: rest)
          = Except.ok (SelOut.years [2026, 2025, 2024, 2023, 2022, 2021]))
      ∧ (∀ args : List String,
          parseYears args
            = parseYears (args.filter (fun s => !(s == "all"))))
      ∧ selectedYearsE ["2025", "all"] = Except.ok (SelOut.years [2025]) := by
  refine ⟨?_, ?_, rfl⟩
  · intro t rest h
    have hs : sortDesc fiscalYearKeys = [2026, 2025, 2024, 2023, 2022, 2021] :=
      by decide
    simp [selectedYearsE, h, hs]
  · intro args
    exact parseYears_drop_all args

/-- Witness for C9: the first argument ALL, uppercase, with a junk
second token, selects all configured years in descending order. -/
theorem all_token_case_insensitive_witness :
    selectedYearsE ["ALL", "junk"]
      = Except.ok (SelOut.years [2026, 2025, 2024, 2023, 2022, 2021]) :=
  all_token_first_position_case_insensitive.1 "ALL" ["junk"] (by decide)

/-- C10, counterexample: year parsing is not total. The superscript-two
character satisfies str.isdigit but int() rejects it, so on the
argument list holding that single token the comprehension at line 166
raises an uncaught ValueError and main crashes without printing
usage. -/
theorem year_parsing_valueerror_counterexample :
    pythonIsDigit "²" = true
      ∧ parseYears ["²"] = Except.error "ValueError"
      ∧ mainTrace downOracle 1 ["²"] = Except.error "ValueError" :=
  ⟨rfl, rfl, rfl⟩

/-- C10, amended: on every argument list of safe tokens, each token
either failing the digit check or convertible by int — in particular on
every ASCII argument list — the comprehension never raises and its
value is the order-preserving filterMap of the per-token outcome, so
non-numeric tokens are silently dropped and duplicate recognized years
are kept per occurrence and fetched once each in the order given;
non-ASCII decimal digits also convert. On a token of digit-only
characters such as the superscript two, however, the digit check passes
while int() raises an uncaught ValueError. -/
theorem year_parsing_total_on_safe (args : List String)
    (h : ∀ s ∈ args, tokenSafe s = true) :
    parseYears args = Except.ok (args.filterMap parseTok)
      ∧ (∀ s : String, (∀ c ∈ s.toList, c.toNat ≤ 127) → tokenSafe s = true)
      ∧ parseYears ["2025", "FY2026", "-5", "2025"] = Except.ok [2025, 2025]
      ∧ parseYears ["٢٠٢٦"] = Except.ok [2026]
      ∧ (∀ (o : Oracle) (fuel : Nat),
          mainTrace o fuel ["2025", "junk", "2025"]
            = Except.ok (preEffs
                ++ (fetchFiscalYearEffs o fuel 2025
                     ++ fetchFiscalYearEffs o fuel 2025)
                ++ [Eff.consoleOut "SUMMARY"])) := by
  refine ⟨parseYears_eq_of_safe args h, ascii_tokenSafe, rfl, rfl, ?_⟩
  intro o fuel
  have hsel : selectedYearsE ["2025", "junk", "2025"]
      = Except.ok (SelOut.years [2025, 2025]) := rfl
  simp [mainTrace, hsel]

/-- Witness for the amended C10 at a concrete argument list mixing
recognized years, a negative number, a prefixed year and an
unrecognized year, all safe tokens. -/
theorem year_parsing_total_on_safe_witness :
    parseYears ["2026", "-5", "FY2026", "2099", "2025", "2025"]
      = Except.ok [2026, 2025, 2025] :=
  ((year_parsing_total_on_safe ["2026", "-5", "FY2026", "2099", "2025", "2025"]
      (by decide)).1).trans (by rfl)

end FetchBuild
